import Mathlib

/-!
Verification of the model-viewer component in src/src/ModelViewer.tsx.

The component keeps five pieces of React state (selected folder, fetched
model list, selection set, loading flag, error message).  We embed that
state as a structure, every event handler as a pure state-update function,
and the asynchronous list fetch as a start step plus a resolution step.
Two ghost fields record observable effects: the number of in-flight list
fetches and the list of GET URLs issued so far.  The JavaScript Set of
selected paths is modelled as a Finset of strings (the claims under study
only speak about the selection as a set, never about its insertion order).
Grid coordinates, exact in JavaScript floats for the magnitudes involved,
are modelled as rationals.
-/

/-- Base URL of the remote API (ModelViewer.tsx, line 6). -/
def API_BASE_URL : String := "http://localhost:3001"

/-- Model descriptor returned by the list endpoint (lines 9-12). -/
structure ModelInfo where
  name : String
  path : String
deriving DecidableEq

/-- Folder names hard-coded in the UI (line 33). -/
def availableFolders : List String := ["aircraft", "animals", "furniture"]

/-- The component state (lines 36-42) plus two ghost fields: pending counts
the fetch promises started but not yet resolved, requests records every GET
URL issued to the list endpoint. -/
structure ViewerState where
  selectedFolder : String
  models : List ModelInfo
  selectedModels : Finset String
  loading : Bool
  error : Option String
  pending : Nat
  requests : List String
deriving DecidableEq

/-- The useState initialisers (lines 36-42): empty folder, no models, empty
selection, not loading, no error. -/
def initialState : ViewerState :=
  { selectedFolder := "", models := [], selectedModels := ∅,
    loading := false, error := none, pending := 0, requests := [] }

/-- URL of the model-list endpoint for a folder (lines 54-56). -/
def modelsUrl (folder : String) : String :=
  API_BASE_URL ++ "/models/" ++ folder

/-- handleFolderChange (lines 78-80): stores the value picked in the
dropdown. -/
def handleFolderChange (s : ViewerState) (f : String) : ViewerState :=
  { s with selectedFolder := f }

/-- Synchronous prefix of the fetch effect (lines 45-56).  The effect runs
whenever selectedFolder changes; with an empty folder it returns before
doing anything, otherwise it sets loading, clears the error and the
selection, and issues one GET to the list endpoint (recorded in the ghost
fields). -/
def fetchStart (s : ViewerState) : ViewerState :=
  if s.selectedFolder = "" then s
  else
    { s with
      loading := true
      error := none
      selectedModels := ∅
      pending := s.pending + 1
      requests := s.requests ++ [modelsUrl s.selectedFolder] }

/-- Outcome of one awaited list fetch: a parsed models array, a non-2xx
response carrying its statusText, or a thrown value (for a network error
the thrown value is an Error carrying a message; none models a thrown
non-Error value). -/
inductive FetchResult where
  | success (models : List ModelInfo)
  | httpError (statusText : String)
  | networkError (message : Option String)
deriving DecidableEq

/-- Resolution of one in-flight fetch (lines 58-71).  A 2xx response stores
the parsed array and clears loading; a non-2xx response throws
Error("Failed to fetch models: " ++ statusText) which the catch block
stores as the error message, clearing loading and the model list; any
other thrown value is handled the same way, with "Failed to load models"
as the fallback message for non-Error values. -/
def fetchResolve (s : ViewerState) (r : FetchResult) : ViewerState :=
  match r with
  | .success ms =>
      { s with
        models := ms
        loading := false
        pending := s.pending - 1 }
  | .httpError st =>
      { s with
        error := some ("Failed to fetch models: " ++ st)
        loading := false
        models := []
        pending := s.pending - 1 }
  | .networkError msg =>
      { s with
        error := some (msg.getD "Failed to load models")
        loading := false
        models := []
        pending := s.pending - 1 }

/-- toggleModelSelection (lines 83-93): copy the selection, delete the path
if present, add it otherwise. -/
def toggleModelSelection (s : ViewerState) (modelPath : String) : ViewerState :=
  if modelPath ∈ s.selectedModels then
    { s with selectedModels := s.selectedModels.erase modelPath }
  else
    { s with selectedModels := insert modelPath s.selectedModels }

/-- handleSelectAll (lines 96-103): with true, the selection becomes the
set of all paths of the current model list; with false it becomes empty. -/
def handleSelectAll (s : ViewerState) (select : Bool) : ViewerState :=
  if select then
    { s with selectedModels := (s.models.map ModelInfo.path).toFinset }
  else
    { s with selectedModels := ∅ }

/-- Math.ceil (Math.sqrt n) on a natural number, as used for the column
count (line 107): Nat.sqrt n is the floor of the square root, and the
ceiling is that floor plus one unless n is a perfect square. -/
def ceilSqrt (n : Nat) : Nat :=
  if Nat.sqrt n * Nat.sqrt n = n then Nat.sqrt n else Nat.sqrt n + 1

/-- Distance between models (line 108). -/
def spacing : ℚ := 2

/-- calculatePosition (lines 106-118).  The first argument stands for
selectedModels.size, over which the component closes. -/
def calculatePosition (n index : Nat) : ℚ × ℚ × ℚ :=
  let gridSize := ceilSqrt n
  let row := index / gridSize
  let col := index % gridSize
  (((col : ℚ) - ((gridSize : ℚ) - 1) / 2) * spacing, 0,
   ((row : ℚ) - ((gridSize : ℚ) - 1) / 2) * spacing)

/-- Grid-position formula exactly as the specification words it (spec
section 8): column count ceil(sqrt n), position of index i given by
(((i mod cols) - (cols-1)/2)*spacing, 0, ((floor(i/cols)) - (cols-1)/2)*spacing)
with spacing 2. -/
def specGridPos (n index : Nat) : ℚ × ℚ × ℚ :=
  let cols := ceilSqrt n
  ((((index % cols : Nat) : ℚ) - ((cols : ℚ) - 1) / 2) * 2, 0,
   (((index / cols : Nat) : ℚ) - ((cols : ℚ) - 1) / 2) * 2)

/-- Positions the Canvas block passes to the Model components
(lines 224-241): one position per selected model, and none at all unless
the selection is non-empty (the Canvas is only rendered under the guard
selectedModels.size > 0). -/
def canvasPositions (s : ViewerState) : List (ℚ × ℚ × ℚ) :=
  if 0 < s.selectedModels.card then
    (List.range s.selectedModels.card).map
      (fun index => calculatePosition s.selectedModels.card index)
  else []

/-- The set of paths of a model list. -/
def pathsOf (ms : List ModelInfo) : Finset String :=
  (ms.map ModelInfo.path).toFinset

/-- The invariant claimed by the specification: the selection set only
holds paths of the current model list. -/
def SelectionInv (s : ViewerState) : Prop :=
  s.selectedModels ⊆ pathsOf s.models

/-- One UI or network event, guarded exactly as the component can fire it:
a checkbox toggle exists only while a folder is chosen, no fetch is
loading, no error is shown and the path belongs to a rendered model
(lines 153-217); the Select All button is disabled on an empty list or
while loading, Deselect All on an empty selection or while loading
(lines 165-180); the folder dropdown is always enabled; a fetch resolution
can arrive whenever a fetch is in flight.  Nothing cancels an in-flight
fetch on folder change, so several may be pending at once and resolve in
any order. -/
inductive Step : ViewerState → ViewerState → Prop where
  | toggle {s : ViewerState} (p : String)
      (hfolder : s.selectedFolder ≠ "") (hload : s.loading = false)
      (hnoerr : s.error = none) (hmem : p ∈ s.models.map ModelInfo.path) :
      Step s (toggleModelSelection s p)
  | selectAll {s : ViewerState}
      (hload : s.loading = false) (hne : s.models ≠ []) :
      Step s (handleSelectAll s true)
  | deselectAll {s : ViewerState}
      (hload : s.loading = false) (hne : s.selectedModels ≠ ∅) :
      Step s (handleSelectAll s false)
  | folderChange {s : ViewerState} (f : String) :
      Step s (fetchStart (handleFolderChange s f))
  | resolve {s : ViewerState} (r : FetchResult) (hpend : 0 < s.pending) :
      Step s (fetchResolve s r)

/-- States reachable from the initial state by UI and network events. -/
def Reachable (s : ViewerState) : Prop :=
  Relation.ReflTransGen Step initialState s

/-!  Helper lemmas about the column count.  -/

/-- Evaluation rule for Nat.sqrt (whose definition is by well-founded
recursion): it is the unique s with s * s ≤ n < (s+1) * (s+1). -/
theorem nat_sqrt_eval (n s : Nat) (h1 : s * s ≤ n) (h2 : n < (s + 1) * (s + 1)) :
    Nat.sqrt n = s :=
  Nat.le_antisymm (Nat.lt_succ_iff.mp (Nat.sqrt_lt.mpr h2)) (Nat.le_sqrt.mpr h1)

/-- On a perfect square the column count is the exact root. -/
theorem ceilSqrt_mul_self (c : Nat) : ceilSqrt (c * c) = c := by
  unfold ceilSqrt
  rw [Nat.sqrt_eq c]
  simp

/-- Column count for two models. -/
theorem ceilSqrt_two : ceilSqrt 2 = 2 := by
  unfold ceilSqrt
  rw [nat_sqrt_eval 2 1 (by norm_num) (by norm_num)]
  norm_num

/-- Column count for one model. -/
theorem ceilSqrt_one : ceilSqrt 1 = 1 := by
  have h := ceilSqrt_mul_self 1
  simpa using h

/-- Column count for four models. -/
theorem ceilSqrt_four : ceilSqrt 4 = 2 := by
  have h := ceilSqrt_mul_self 2
  simpa using h

/-- The column count is at least one as soon as one model is selected. -/
theorem ceilSqrt_pos (n : Nat) (hn : 1 ≤ n) : 1 ≤ ceilSqrt n := by
  unfold ceilSqrt
  split
  case isTrue h =>
    rcases Nat.eq_zero_or_pos (Nat.sqrt n) with h0 | h1
    · rw [h0] at h
      omega
    · exact h1
  case isFalse h => omega

/-- ceilSqrt agrees with the ceiling of the real square root, the function
the source computes with Math.ceil and Math.sqrt. -/
theorem ceilSqrt_eq_ceil_real_sqrt (n : Nat) :
    ceilSqrt n = Nat.ceil (Real.sqrt n) := by
  unfold ceilSqrt
  split
  case isTrue h =>
    have h2 : n = Nat.sqrt n ^ 2 := by
      rw [pow_two]
      exact h.symm
    have hcast : ((n : ℝ)) = ((Nat.sqrt n : ℝ)) ^ 2 := by
      exact_mod_cast congrArg (Nat.cast : ℕ → ℝ) h2
    rw [hcast, Real.sqrt_sq (by positivity), Nat.ceil_natCast]
  case isFalse h =>
    have h1 : Nat.sqrt n * Nat.sqrt n < n :=
      Nat.lt_of_le_of_ne (Nat.sqrt_le n) h
    rw [eq_comm, Nat.ceil_eq_iff (Nat.succ_ne_zero _)]
    constructor
    · have hlt : ((Nat.sqrt n : ℝ)) ^ 2 < (n : ℝ) := by
        have h3 : Nat.sqrt n ^ 2 < n := by
          rw [pow_two]
          exact h1
        exact_mod_cast h3
      simpa using (Real.lt_sqrt (by positivity)).mpr hlt
    · have := @Real.real_sqrt_le_nat_sqrt_succ n
      push_cast
      push_cast at this
      exact this

/-!  Claim C1: the grid placement formula.  -/

/-- C1: for every n ≥ 1 selected models and index i < n, calculatePosition
uses column count ceil(sqrt n) (the ceiling of the real square root) and
returns exactly the positions the specification states; in particular for
n = 4 the positions of indices 0..3 are (-1,0,-1), (1,0,-1), (-1,0,1),
(1,0,1) with two columns, and for n = 1 the single position is (0,0,0). -/
theorem grid_placement_formula (n i : Nat) (hn : 1 ≤ n) (hi : i < n) :
    calculatePosition n i = specGridPos n i ∧
    ceilSqrt n = Nat.ceil (Real.sqrt n) ∧
    ceilSqrt 4 = 2 ∧
    calculatePosition 4 0 = (-1, 0, -1) ∧
    calculatePosition 4 1 = (1, 0, -1) ∧
    calculatePosition 4 2 = (-1, 0, 1) ∧
    calculatePosition 4 3 = (1, 0, 1) ∧
    calculatePosition 1 0 = (0, 0, 0) := by
  refine ⟨rfl, ceilSqrt_eq_ceil_real_sqrt n, ceilSqrt_four, ?_, ?_, ?_, ?_, ?_⟩
  all_goals simp [calculatePosition, ceilSqrt_four, ceilSqrt_one, spacing]
  all_goals norm_num

/-- Witness for C1 at n = 4, i = 0 and the two concrete scenarios. -/
theorem grid_placement_formula_wit :
    calculatePosition 4 0 = specGridPos 4 0 ∧ calculatePosition 1 0 = (0, 0, 0) :=
  ⟨(grid_placement_formula 4 0 (by norm_num) (by norm_num)).1,
   (grid_placement_formula 4 0 (by norm_num) (by norm_num)).2.2.2.2.2.2.2⟩

/-!  Claim C3: state after a failed list fetch.  -/

/-- C3 counterexample: after a non-2xx response with statusText
"Not Found", the stored error message is not the bare status text (the
code prefixes it with "Failed to fetch models: "). -/
theorem fetch_failure_message_not_bare_status :
    (fetchResolve initialState (FetchResult.httpError "Not Found")).error
      ≠ some "Not Found" := by
  decide

/-- C3 amended: on fetch failure the state carries an error message — for
a non-2xx response the string "Failed to fetch models: " followed by the
HTTP status text, for a thrown Error its own message, with the fallback
"Failed to load models" for non-Error values — and has an empty model
list and a cleared loading flag. -/
theorem fetch_failure_sets_error (s : ViewerState) (st m : String) :
    (fetchResolve s (FetchResult.httpError st)).error
        = some ("Failed to fetch models: " ++ st) ∧
    (fetchResolve s (FetchResult.httpError st)).models = [] ∧
    (fetchResolve s (FetchResult.httpError st)).loading = false ∧
    (fetchResolve s (FetchResult.networkError (some m))).error = some m ∧
    (fetchResolve s (FetchResult.networkError (some m))).models = [] ∧
    (fetchResolve s (FetchResult.networkError (some m))).loading = false ∧
    (fetchResolve s (FetchResult.networkError none)).error
        = some "Failed to load models" :=
  ⟨rfl, rfl, rfl, rfl, rfl, rfl, rfl⟩

/-!  Claim C4: what a folder change does to the selection.  -/

/-- A state with one fetched model which is selected, as after choosing
the animals folder, a successful fetch and one checkbox click. -/
def cexFolderState : ViewerState :=
  { selectedFolder := "animals"
    models := [{ name := "dog", path := "/animals/dog.glb" }]
    selectedModels := {"/animals/dog.glb"}
    loading := false
    error := none
    pending := 0
    requests := [modelsUrl "animals"] }

/-- C4 counterexample: switching back to the empty placeholder option does
not clear a non-empty selection, because the fetch effect returns before
the clearing line when the folder is empty. -/
theorem empty_folder_keeps_selection :
    (fetchStart (handleFolderChange cexFolderState "")).selectedModels ≠ ∅ := by
  decide

/-- C4 amended: changing the folder to any non-empty value clears the
selection set; changing it to the empty placeholder leaves the selection
set unchanged. -/
theorem folder_change_selection (s : ViewerState) (f : String) :
    (f ≠ "" → (fetchStart (handleFolderChange s f)).selectedModels = ∅) ∧
    (fetchStart (handleFolderChange s "")).selectedModels = s.selectedModels := by
  constructor
  · intro hf
    simp [fetchStart, handleFolderChange, hf]
  · simp [fetchStart, handleFolderChange]

/-- Witness for C4 as amended, at the initial state and folder aircraft. -/
theorem folder_change_selection_wit :
    (fetchStart (handleFolderChange initialState "aircraft")).selectedModels = ∅ ∧
    (fetchStart (handleFolderChange initialState "")).selectedModels
      = initialState.selectedModels :=
  ⟨(folder_change_selection initialState "aircraft").1 (by decide),
   (folder_change_selection initialState "").2⟩

/-!  Claim C6: the three selection operations.  -/

/-- C6: select-all makes the selection exactly the set of paths of the
current model list, deselect-all empties it, and toggling path p removes
p when present and adds it when absent (stated by membership: after the
toggle, q is selected iff q was selected and differs from p, or q is p
and p was not selected). -/
theorem selection_ops_correct (s : ViewerState) (p q : String) :
    (handleSelectAll s true).selectedModels = (s.models.map ModelInfo.path).toFinset ∧
    (handleSelectAll s false).selectedModels = ∅ ∧
    (q ∈ (toggleModelSelection s p).selectedModels ↔
      ((q ∈ s.selectedModels ∧ q ≠ p) ∨ (q = p ∧ p ∉ s.selectedModels))) := by
  refine ⟨rfl, rfl, ?_⟩
  unfold toggleModelSelection
  rcases eq_or_ne q p with hqp | hqp
  · subst hqp
    split
    case isTrue h => simp [h]
    case isFalse h => simp [h]
  · split
    case isTrue h => simp [Finset.mem_erase, hqp, h]
    case isFalse h => simp [Finset.mem_insert, hqp, h]

/-!  Claim C7: the selection operations only touch the selection.  -/

/-- C7: toggle, select-all and deselect-all leave the model list, the
selected folder, the loading flag, the error message, the in-flight fetch
count and the issued request list untouched. -/
theorem selection_ops_frame (s : ViewerState) (p : String) (b : Bool) :
    (toggleModelSelection s p).models = s.models ∧
    (toggleModelSelection s p).selectedFolder = s.selectedFolder ∧
    (toggleModelSelection s p).loading = s.loading ∧
    (toggleModelSelection s p).error = s.error ∧
    (toggleModelSelection s p).pending = s.pending ∧
    (toggleModelSelection s p).requests = s.requests ∧
    (handleSelectAll s b).models = s.models ∧
    (handleSelectAll s b).selectedFolder = s.selectedFolder ∧
    (handleSelectAll s b).loading = s.loading ∧
    (handleSelectAll s b).error = s.error ∧
    (handleSelectAll s b).pending = s.pending ∧
    (handleSelectAll s b).requests = s.requests := by
  unfold toggleModelSelection handleSelectAll
  split <;> split <;> simp

/-!  Claim C8: one GET per folder change and the state after success.  -/

/-- C8: changing to a non-empty folder issues exactly one GET, to
{API_BASE_URL}/models/{folder}, and when its response parses successfully
the model list becomes the parsed array, the selection set is empty, and
no further request has been issued. -/
theorem folder_change_single_fetch (s : ViewerState) (f : String)
    (ms : List ModelInfo) (hf : f ≠ "") :
    (fetchStart (handleFolderChange s f)).requests = s.requests ++ [modelsUrl f] ∧
    modelsUrl f = API_BASE_URL ++ "/models/" ++ f ∧
    (fetchResolve (fetchStart (handleFolderChange s f)) (FetchResult.success ms)).models
      = ms ∧
    (fetchResolve (fetchStart (handleFolderChange s f)) (FetchResult.success ms)).selectedModels
      = ∅ ∧
    (fetchResolve (fetchStart (handleFolderChange s f)) (FetchResult.success ms)).requests
      = s.requests ++ [modelsUrl f] := by
  refine ⟨?_, rfl, ?_, ?_, ?_⟩ <;> simp [fetchStart, handleFolderChange, fetchResolve, hf]

/-- Witness for C8 at the initial state, folder aircraft, one model. -/
theorem folder_change_single_fetch_wit :
    (fetchStart (handleFolderChange initialState "aircraft")).requests
      = initialState.requests ++ [modelsUrl "aircraft"] ∧
    (fetchResolve (fetchStart (handleFolderChange initialState "aircraft"))
        (FetchResult.success [{ name := "jet", path := "/aircraft/jet.glb" }])).selectedModels
      = ∅ :=
  ⟨(folder_change_single_fetch initialState "aircraft"
      [{ name := "jet", path := "/aircraft/jet.glb" }] (by decide)).1,
   (folder_change_single_fetch initialState "aircraft"
      [{ name := "jet", path := "/aircraft/jet.glb" }] (by decide)).2.2.2.1⟩

/-!  Claim C9: totality of the grid placement and its guard.  -/

/-- C9: for n ≥ 1 the column count is at least 1, so the division and the
modulo in calculatePosition never divide by zero and the result is the
finite rational triple below; moreover the Canvas computes no position at
all when the selection is empty, and whenever it does compute positions
the column count for the selection size is positive. -/
theorem grid_total_guarded (s : ViewerState) (n i : Nat) (hn : 1 ≤ n) (hi : i < n) :
    1 ≤ ceilSqrt n ∧
    calculatePosition n i =
      ((((i % ceilSqrt n : Nat) : ℚ) - ((ceilSqrt n : ℚ) - 1) / 2) * 2, 0,
       (((i / ceilSqrt n : Nat) : ℚ) - ((ceilSqrt n : ℚ) - 1) / 2) * 2) ∧
    (s.selectedModels = ∅ → canvasPositions s = []) ∧
    (s.selectedModels ≠ ∅ → 1 ≤ ceilSqrt s.selectedModels.card) := by
  refine ⟨ceilSqrt_pos n hn, rfl, ?_, ?_⟩
  · intro h
    simp [canvasPositions, h]
  · intro h
    exact ceilSqrt_pos _ (Finset.card_pos.mpr (Finset.nonempty_iff_ne_empty.mpr h))

/-- Witness for C9 at the initial state and n = 4, i = 0. -/
theorem grid_total_guarded_wit :
    1 ≤ ceilSqrt 4 ∧
    (initialState.selectedModels = ∅ → canvasPositions initialState = []) :=
  ⟨(grid_total_guarded initialState 4 0 (by norm_num) (by norm_num)).1,
   (grid_total_guarded initialState 4 0 (by norm_num) (by norm_num)).2.2.1⟩

/-!  Claim C10: toggling is an involution and never a no-op.  -/

/-- C10: toggling the same path twice restores the selection set, and a
single toggle always changes it. -/
theorem toggle_involution_and_changes (s : ViewerState) (p : String) :
    (toggleModelSelection (toggleModelSelection s p) p).selectedModels
      = s.selectedModels ∧
    (toggleModelSelection s p).selectedModels ≠ s.selectedModels := by
  constructor
  · by_cases h : p ∈ s.selectedModels
    · simp [toggleModelSelection, h, Finset.not_mem_erase, Finset.insert_erase h]
    · simp [toggleModelSelection, h, Finset.erase_insert h]
  · by_cases h : p ∈ s.selectedModels
    · simp [toggleModelSelection, h, Finset.erase_eq_self]
    · simp [toggleModelSelection, h, Finset.insert_eq_self]

/-!  Claim C2: centring of the grid.

The code centres each axis with the offset (gridSize - 1)/2 computed from
the full square grid, whether or not the last rows are used.  The sums
below show the positions add up to zero exactly on a full square grid,
while two selected models already have centroid (0, 0, -1).  -/

/-- Sum of the column indices over m full rows of width c. -/
theorem sum_range_mod (c m : Nat) :
    ∑ i ∈ Finset.range (m * c), i % c = m * ∑ r ∈ Finset.range c, r := by
  induction m with
  | zero => simp
  | succ k ih =>
    have hsplit : (k + 1) * c = k * c + c := by ring
    rw [hsplit, Finset.sum_range_add, ih]
    have h : ∀ x ∈ Finset.range c, (k * c + x) % c = x := by
      intro x hx
      rw [Nat.mul_comm k c, Nat.mul_add_mod, Nat.mod_eq_of_lt (Finset.mem_range.mp hx)]
    rw [Finset.sum_congr rfl h]
    ring

/-- Sum of the row indices over m full rows of width c. -/
theorem sum_range_div (c m : Nat) (hc : 0 < c) :
    ∑ i ∈ Finset.range (m * c), i / c = c * ∑ q ∈ Finset.range m, q := by
  induction m with
  | zero => simp
  | succ k ih =>
    have hsplit : (k + 1) * c = k * c + c := by ring
    rw [hsplit, Finset.sum_range_add, ih]
    have h : ∀ x ∈ Finset.range c, (k * c + x) / c = k := by
      intro x hx
      rw [Nat.mul_comm k c, Nat.mul_add_div hc, Nat.div_eq_of_lt (Finset.mem_range.mp hx),
        Nat.add_zero]
    rw [Finset.sum_congr rfl h, Finset.sum_const, Finset.card_range, smul_eq_mul,
      Finset.sum_range_succ]
    ring

/-- Gauss sum over the rationals. -/
theorem gauss_sum_q (c : Nat) (hc : 1 ≤ c) :
    (∑ i ∈ Finset.range c, (i : ℚ)) * 2 = (c : ℚ) * ((c : ℚ) - 1) := by
  have h := Finset.sum_range_id_mul_two c
  have h2 : (((∑ i ∈ Finset.range c, i) * 2 : ℕ) : ℚ) = ((c * (c - 1) : ℕ) : ℚ) := by
    exact_mod_cast congrArg (Nat.cast : ℕ → ℚ) h
  push_cast [Nat.cast_sub hc] at h2
  linarith

/-- C2 amended: when the number of selected models is a perfect square
c * c (the grid is completely filled), the positions sum to the origin,
so their centroid is (0,0,0). -/
theorem grid_centroid_square (c : Nat) (hc : 1 ≤ c) :
    (∑ i ∈ Finset.range (c * c), calculatePosition (c * c) i) = (0, 0, 0) ∧
    ((c * c : ℚ))⁻¹ • (∑ i ∈ Finset.range (c * c), calculatePosition (c * c) i)
      = (0, 0, 0) := by
  have hcs : ceilSqrt (c * c) = c := ceilSqrt_mul_self c
  have hG := gauss_sum_q c hc
  have hS : (∑ i ∈ Finset.range (c * c), ((i % c : ℕ) : ℚ))
      = (c : ℚ) * (∑ r ∈ Finset.range c, (r : ℚ)) := by
    rw [← Nat.cast_sum, ← Nat.cast_sum, ← Nat.cast_mul]
    exact congrArg (Nat.cast : ℕ → ℚ) (sum_range_mod c c)
  have hD : (∑ i ∈ Finset.range (c * c), ((i / c : ℕ) : ℚ))
      = (c : ℚ) * (∑ q ∈ Finset.range c, (q : ℚ)) := by
    rw [← Nat.cast_sum, ← Nat.cast_sum, ← Nat.cast_mul]
    exact congrArg (Nat.cast : ℕ → ℚ) (sum_range_div c c hc)
  have hterm : ∀ i ∈ Finset.range (c * c), calculatePosition (c * c) i =
      ((((i % c : ℕ) : ℚ) - ((c : ℚ) - 1) / 2) * 2, (0 : ℚ),
       (((i / c : ℕ) : ℚ) - ((c : ℚ) - 1) / 2) * 2) := by
    intro i _
    simp [calculatePosition, hcs, spacing]
  have hx : ∑ i ∈ Finset.range (c * c),
      ((((i % c : ℕ) : ℚ) - ((c : ℚ) - 1) / 2) * 2) = 0 := by
    simp only [sub_mul]
    rw [Finset.sum_sub_distrib, ← Finset.sum_mul, Finset.sum_const, Finset.card_range,
      nsmul_eq_mul, hS]
    push_cast
    linear_combination (c : ℚ) * hG
  have hz : ∑ i ∈ Finset.range (c * c),
      ((((i / c : ℕ) : ℚ) - ((c : ℚ) - 1) / 2) * 2) = 0 := by
    simp only [sub_mul]
    rw [Finset.sum_sub_distrib, ← Finset.sum_mul, Finset.sum_const, Finset.card_range,
      nsmul_eq_mul, hD]
    push_cast
    linear_combination (c : ℚ) * hG
  have hsum : (∑ i ∈ Finset.range (c * c), calculatePosition (c * c) i) = (0, 0, 0) := by
    rw [Finset.sum_congr rfl hterm]
    refine Prod.ext ?_ (Prod.ext ?_ ?_)
    · rw [Prod.fst_sum]
      simpa using hx
    · rw [Prod.snd_sum, Prod.fst_sum]
      simp
    · rw [Prod.snd_sum, Prod.snd_sum]
      simpa using hz
  exact ⟨hsum, by rw [hsum]; simp⟩

/-- Witness for C2 as amended, at c = 2 (four selected models). -/
theorem grid_centroid_square_wit :
    (∑ i ∈ Finset.range (2 * 2), calculatePosition (2 * 2) i) = (0, 0, 0) :=
  (grid_centroid_square 2 (by norm_num)).1

/-- C2 counterexample: with two selected models the positions are
(-1,0,-1) and (1,0,-1), so the centroid is (0,0,-1), not the origin. -/
theorem grid_centroid_not_origin_two :
    ((2 : ℚ))⁻¹ • (∑ i ∈ Finset.range 2, calculatePosition 2 i) ≠ (0, 0, 0) := by
  have h0 : calculatePosition 2 0 = (-1, 0, -1) := by
    simp [calculatePosition, ceilSqrt_two, spacing]
    norm_num
  have h1 : calculatePosition 2 1 = (1, 0, -1) := by
    simp [calculatePosition, ceilSqrt_two, spacing]
    norm_num
  rw [Finset.sum_range_succ, Finset.sum_range_one, h0, h1]
  intro hcontra
  rw [Prod.ext_iff, Prod.ext_iff] at hcontra
  simp [Prod.smul_mk, smul_eq_mul] at hcontra


/-!  Claim C5: the selection-subset invariant under interleaved fetches.

The effect at lines 45-75 registers no cleanup and sends no abort signal,
so a fetch still in flight when the folder changes again will, on
resolution, overwrite the model list of the newer folder.  The concrete
trace below reaches a state whose selection is not contained in the model
list: change to aircraft, change to animals while the first fetch is
still pending, receive the animals response, tick the dog checkbox, then
receive the stale aircraft response.  -/

/-- The single model of the animals folder in the trace below. -/
def dogModel : ModelInfo := { name := "dog", path := "/animals/dog.glb" }

/-- The single model of the aircraft folder in the trace below. -/
def jetModel : ModelInfo := { name := "jet", path := "/aircraft/jet.glb" }

/-- Trace: the user picks the aircraft folder; its fetch starts. -/
def trace1 : ViewerState := fetchStart (handleFolderChange initialState "aircraft")

/-- Trace: the user picks the animals folder while the aircraft fetch is
still in flight; a second fetch starts. -/
def trace2 : ViewerState := fetchStart (handleFolderChange trace1 "animals")

/-- Trace: the animals response arrives first. -/
def trace3 : ViewerState := fetchResolve trace2 (FetchResult.success [dogModel])

/-- Trace: the user ticks the dog checkbox. -/
def trace4 : ViewerState := toggleModelSelection trace3 "/animals/dog.glb"

/-- Trace: the stale aircraft response arrives and overwrites the model
list while the selection still holds the dog path. -/
def staleTraceState : ViewerState := fetchResolve trace4 (FetchResult.success [jetModel])

/-- C5 is violated by the code: the state at the end of the stale-fetch
trace is reachable by toggle, folder-change and fetch-resolution steps,
yet its selection set is not a subset of the paths of its model list. -/
theorem stale_fetch_breaks_selection_inv :
    Reachable staleTraceState ∧ ¬ SelectionInv staleTraceState := by
  have h1 : Step initialState trace1 := Step.folderChange "aircraft"
  have h2 : Step trace1 trace2 := Step.folderChange "animals"
  have h3 : Step trace2 trace3 :=
    Step.resolve (FetchResult.success [dogModel]) (by decide)
  have h4 : Step trace3 trace4 :=
    Step.toggle "/animals/dog.glb" (by decide) (by decide) (by decide) (by decide)
  have h5 : Step trace4 staleTraceState :=
    Step.resolve (FetchResult.success [jetModel]) (by decide)
  constructor
  · exact Relation.ReflTransGen.tail (Relation.ReflTransGen.tail
      (Relation.ReflTransGen.tail (Relation.ReflTransGen.tail
        (Relation.ReflTransGen.single h1) h2) h3) h4) h5
  · unfold SelectionInv
    decide
